import Mathlib

/-!
Verification development for the TokenGauge core crate
(`crates/tokengauge-core/src/lib.rs`).

The Rust code is shallowly embedded: Rust `String`/`&str` values become Lean
`String` (with byte-level operations modelled on the underlying `List Char`
together with an explicit UTF-8 byte-size function, since Rust string
indexing is byte-based and panics off a character boundary), machine
integers `u8`/`u32`/`i32` become `Fin 256` / `Fin (2 ^ 32)` / an `Int`
subtype, `f64` values (which the core only ever carries around, never
computes with) are modelled as rationals, fallible or panicking code
returns `Option`/`Except`, and external collaborators (the spawned
`codexbar` process, `serde_json`'s text layer, `chrono`'s local-time
formatting, `std`'s float formatting) are abstracted as function
parameters or modelled at the JSON-value level.
-/

/-! ## Byte-level string helpers

Rust `&str` operations used by the core are byte-indexed.  `charBytes`
is the UTF-8 encoded size of a character; `byteTake n s` models taking
the first `n` bytes of a string (`&s[..n]` / `s.get(0..n)`), returning
`none` exactly when Rust would panic / return `None`: when `n` overruns
the string or falls strictly inside a multi-byte character. -/

/-- UTF-8 encoded size in bytes of a character. -/
def charBytes (c : Char) : Nat :=
  if c.toNat < 0x80 then 1
  else if c.toNat < 0x800 then 2
  else if c.toNat < 0x10000 then 3
  else 4

/-- UTF-8 byte length of a string given as a character list (Rust `str::len`). -/
def utf8Len (s : List Char) : Nat := (s.map charBytes).sum

/-- Does the list start with the pattern? (first argument is the pattern) -/
def startsWithL : List Char → List Char → Bool
  | [], _ => true
  | _ :: _, [] => false
  | p :: ps, c :: cs => p == c && startsWithL ps cs

/-- Rust `str::contains` for a pattern that is itself valid UTF-8: byte-level
substring search coincides with character-list infix search. -/
def containsSub (pat : List Char) : List Char → Bool
  | [] => startsWithL pat []
  | c :: cs => startsWithL pat (c :: cs) || containsSub pat cs

/-- Split at the first occurrence of the pattern: returns the characters
before the match and the characters after it (Rust `str::find` plus
slicing past the pattern). -/
def splitFirstAt (pat : List Char) : List Char → Option (List Char × List Char)
  | [] => if startsWithL pat [] then some ([], []) else none
  | c :: cs =>
    if startsWithL pat (c :: cs) then some ([], (c :: cs).drop pat.length)
    else
      match splitFirstAt pat cs with
      | some (b, a) => some (c :: b, a)
      | none => none

/-- Take the first `n` bytes of a string (Rust `s.get(0..n)`; `&s[..n]`
panics exactly when this returns `none`). -/
def byteTake (n : Nat) : List Char → Option (List Char)
  | [] => if n = 0 then some [] else none
  | c :: cs =>
    if n = 0 then some []
    else if charBytes c ≤ n then (byteTake (n - charBytes c) cs).map (c :: ·)
    else none

/-- The characters Rust `str::trim` removes: the Unicode `White_Space` set. -/
def isRustWS (c : Char) : Bool :=
  (0x9 ≤ c.toNat && c.toNat ≤ 0xD) || c.toNat == 0x20 || c.toNat == 0x85 ||
  c.toNat == 0xA0 || c.toNat == 0x1680 ||
  (0x2000 ≤ c.toNat && c.toNat ≤ 0x200A) || c.toNat == 0x2028 ||
  c.toNat == 0x2029 || c.toNat == 0x202F || c.toNat == 0x205F ||
  c.toNat == 0x3000

/-- Rust `str::trim`: strip whitespace from both ends. -/
def rustTrim (s : List Char) : List Char :=
  ((s.dropWhile isRustWS).reverse.dropWhile isRustWS).reverse

/-- Rust `str::trim` on Lean strings. -/
def rustTrimS (s : String) : String := String.mk (rustTrim s.data)

/-! ## Error Classifier (`clean_error_message` and its helpers)

`clean_error_message` byte-slices with `&raw[..57]` in its final branch,
which panics when byte 57 is not a character boundary; the embedding
therefore returns `Option String`, with `none` marking the panic. -/

/-- Embeds `extract_http_status` (lib.rs lines 403-409): the first of the
six known status-code strings that occurs anywhere in the message. -/
def extract_http_status (raw : List Char) : Option (List Char) :=
  (["401", "403", "404", "500", "502", "503"].find?
      (fun p => containsSub p.data raw)).map (·.data)

/-- Embeds `extract_api_error` (lib.rs lines 385-400): text of the first
`"error":"<text>"` token, suffixed with `(HTTP <status>)` when a known
status code also occurs in the raw message. -/
def extract_api_error (raw : List Char) : Option (List Char) :=
  match splitFirstAt "\"error\":\"".data raw with
  | none => none
  | some (_, rest) =>
    match splitFirstAt ['"'] rest with
    | none => none
    | some (err, _) =>
      match extract_http_status raw with
      | some status => some (err ++ " (HTTP ".data ++ status ++ [')'])
      | none => some err

/-- Embeds `extract_json_message` (lib.rs lines 412-424): text of the first
`"message":"<text>"` token when non-empty and at most 80 bytes. -/
def extract_json_message (raw : List Char) : Option (List Char) :=
  match splitFirstAt "\"message\":\"".data raw with
  | none => none
  | some (_, rest) =>
    match splitFirstAt ['"'] rest with
    | none => none
    | some (msg, _) =>
      if msg ≠ [] ∧ utf8Len msg ≤ 80 then some msg else none

/-- Embeds `clean_error_message` (lib.rs lines 340-382) on character lists.
`none` is an index panic in the truncation branch (`&raw[..57]` off a
character boundary). -/
def cleanErrorMessageL (raw : List Char) : Option (List Char) :=
  if containsSub "codexbar failed".data raw then
    match extract_api_error raw with
    | some e => some e
    | none =>
      if containsSub "No available fetch strategy".data raw then
        some "No available fetch strategy".data
      else
        match extract_json_message raw with
        | some m => some m
        | none => some "API request failed".data
  else if containsSub "timeout".data raw then
    some "Request timed out".data
  else
    let viaApi : Option (List Char) :=
      if containsSub "API returned".data raw || containsSub "API error".data raw then
        match extract_api_error raw with
        | some e => some e
        | none =>
          (extract_http_status raw).map (fun st => "API error (".data ++ st ++ [')'])
      else none
    match viaApi with
    | some r => some r
    | none =>
      if utf8Len raw ≤ 60 then some raw
      else (byteTake 57 raw).map (fun t => t ++ "...".data)

/-- `clean_error_message` on Lean strings; `none` is a panic. -/
def clean_error_message (raw : String) : Option String :=
  (cleanErrorMessageL raw.data).map String.mk

/-! ## Payload data model (lib.rs lines 16-62)

`u8`/`u32` become `Fin 256` / `Fin (2 ^ 32)`; `i32` an `Int` subtype;
`f64` (only ever carried through, never computed with) a rational. -/

/-- Rust `i32`. -/
abbrev Int32 := {i : Int // -2147483648 ≤ i ∧ i < 2147483648}

/-- Embeds `UsageWindow`. -/
structure UsageWindow where
  used_percent : Option (Fin 256)
  reset_description : Option String
  window_minutes : Option (Fin 4294967296)
  deriving DecidableEq

/-- Embeds `UsageSnapshot`. -/
structure UsageSnapshot where
  primary : Option UsageWindow
  secondary : Option UsageWindow
  updated_at : Option String
  deriving DecidableEq

/-- Embeds `Credits`; the `f64` balance is modelled as a rational. -/
structure Credits where
  remaining : Option ℚ
  deriving DecidableEq

/-- Embeds `ProviderError` (the payload-embedded error descriptor). -/
structure ProviderError where
  message : Option String
  code : Option Int32
  kind : Option String
  deriving DecidableEq

/-- Embeds `ProviderPayload`. -/
structure ProviderPayload where
  provider : String
  version : Option String
  source : Option String
  usage : Option UsageSnapshot
  credits : Option Credits
  error : Option ProviderError
  deriving DecidableEq

/-- Embeds `ProviderPayload::has_error`. -/
def ProviderPayload.has_error (p : ProviderPayload) : Bool := p.error.isSome

/-! ## Provider Registry (lib.rs lines 68-143) -/

/-- Embeds `ProviderType`. -/
inductive ProviderType where
  | OAuth
  | Api
  deriving DecidableEq

/-- Embeds `ProviderInfo`. -/
structure ProviderInfo where
  name : String
  provider_type : ProviderType
  env_var : Option String
  label : String
  deriving DecidableEq

/-- Embeds the static registry `PROVIDERS`. -/
def PROVIDERS : List ProviderInfo :=
  [⟨"codex", .OAuth, none, "Codex"⟩,
   ⟨"claude", .OAuth, none, "Claude"⟩,
   ⟨"zai", .Api, some "ZAI_API_TOKEN", "z.ai"⟩,
   ⟨"kimik2", .Api, some "KIMI_K2_API_KEY", "Kimi K2"⟩,
   ⟨"copilot", .Api, some "COPILOT_API_TOKEN", "Copilot"⟩,
   ⟨"minimax", .Api, some "MINIMAX_API_TOKEN", "MiniMax"⟩,
   ⟨"kimi", .Api, some "KIMI_AUTH_TOKEN", "Kimi"⟩]

/-- Embeds `get_provider_info`. -/
def get_provider_info (name : String) : Option ProviderInfo :=
  PROVIDERS.find? (fun p => p.name == name)

/-- Embeds `provider_label`. -/
def provider_label (name : String) : String :=
  ((get_provider_info name).map ProviderInfo.label).getD name

/-! ## Configuration model (lib.rs lines 149-260) -/

/-- Embeds `ApiProviderConfig`. -/
structure ApiProviderConfig where
  api_key : String
  deriving DecidableEq

/-- Embeds `ProvidersConfig`. -/
structure ProvidersConfig where
  codex : Option Bool
  claude : Option Bool
  zai : Option ApiProviderConfig
  kimik2 : Option ApiProviderConfig
  copilot : Option ApiProviderConfig
  minimax : Option ApiProviderConfig
  kimi : Option ApiProviderConfig
  deriving DecidableEq

/-- Embeds `EnabledProvider`. -/
structure EnabledProvider where
  name : String
  provider_type : ProviderType
  api_key : Option String
  env_var : Option String
  deriving DecidableEq

/-- Embeds `ProvidersConfig::enabled_providers` (lib.rs lines 181-245):
the sequence of conditional `push`es is written as a concatenation of
conditional singleton lists, in the same order. -/
def ProvidersConfig.enabled_providers (c : ProvidersConfig) : List EnabledProvider :=
  (if c.codex.getD false then [⟨"codex", .OAuth, none, none⟩] else []) ++
  (if c.claude.getD false then [⟨"claude", .OAuth, none, none⟩] else []) ++
  (match c.zai with
   | some cfg => [⟨"zai", .Api, some cfg.api_key, some "ZAI_API_TOKEN"⟩]
   | none => []) ++
  (match c.kimik2 with
   | some cfg => [⟨"kimik2", .Api, some cfg.api_key, some "KIMI_K2_API_KEY"⟩]
   | none => []) ++
  (match c.copilot with
   | some cfg => [⟨"copilot", .Api, some cfg.api_key, some "COPILOT_API_TOKEN"⟩]
   | none => []) ++
  (match c.minimax with
   | some cfg => [⟨"minimax", .Api, some cfg.api_key, some "MINIMAX_API_TOKEN"⟩]
   | none => []) ++
  (match c.kimi with
   | some cfg => [⟨"kimi", .Api, some cfg.api_key, some "KIMI_AUTH_TOKEN"⟩]
   | none => [])

/-- Embeds `ProvidersConfig::is_enabled` (lib.rs lines 248-259); the Rust
`match` on the name string is an equality chain. -/
def ProvidersConfig.is_enabled (c : ProvidersConfig) (provider : String) : Bool :=
  if provider = "codex" then c.codex.getD false
  else if provider = "claude" then c.claude.getD false
  else if provider = "zai" then c.zai.isSome
  else if provider = "kimik2" then c.kimik2.isSome
  else if provider = "copilot" then c.copilot.isSome
  else if provider = "minimax" then c.minimax.isSome
  else if provider = "kimi" then c.kimi.isSome
  else false

/-! ## Fetch results (lib.rs lines 317-336, 427-467) -/

/-- Embeds `ProviderFetchError`. -/
structure ProviderFetchError where
  provider : String
  message : String
  raw : String
  deriving DecidableEq

/-- Embeds `ProviderFetchError::new`; `none` when `clean_error_message`
panics. -/
def ProviderFetchError.new (provider raw : String) : Option ProviderFetchError :=
  (clean_error_message raw).map (fun m => ⟨provider, m, raw⟩)

/-- Embeds `FetchResult`. -/
structure FetchResult where
  payloads : List ProviderPayload
  errors : List ProviderFetchError
  deriving DecidableEq

/-- Embeds `CachedData`. -/
inductive CachedData where
  | Full (payloads : List ProviderPayload) (errors : List ProviderFetchError)
  | Legacy (payloads : List ProviderPayload)
  deriving DecidableEq

/-- Embeds `CachedData::into_parts`. -/
def CachedData.into_parts : CachedData → List ProviderPayload × List ProviderFetchError
  | .Full payloads errors => (payloads, errors)
  | .Legacy payloads => (payloads, [])

/-! ## Single-Provider Fetcher result handling (lib.rs lines 574-594)

Process spawning, the timeout channel and `serde_json` are external; the
embedding takes the captured exit status, stdout and stderr together with
an abstract JSON payload parser (`parse_payload_bytes`, whose internals
are `serde_json`) and models the branch structure after the bounded wait. -/

/-- Embeds the tail of `fetch_single_provider` (lib.rs lines 574-594): how
the captured process output is turned into a payload list or a fetch
failure.  `parse` abstracts `parse_payload_bytes`; `success` is
`output.status.success()` and `status` its `Display` rendering. -/
def fetch_output_result (parse : String → Except String (List ProviderPayload))
    (success : Bool) (status stdoutRaw stderrRaw : String) :
    Except String (List ProviderPayload) :=
  if success then parse stdoutRaw
  else
    match parse stdoutRaw with
    | .ok payloads => .ok payloads
    | .error _ =>
      let stderrT := rustTrimS stderrRaw
      let stdoutT := rustTrimS stdoutRaw
      let detail :=
        if stderrT = "" then (if stdoutT = "" then "no error output" else stdoutT)
        else stderrT
      .error ("codexbar failed (" ++ status ++ ") - " ++ detail)

/-! ## Fetch Orchestrator join loop (lib.rs lines 597-657)

Thread fan-out and join are concurrency; what the claims speak about is
the sequential loop over the joined outcomes (lines 625-654).  A joined
outcome is either the spawned provider's `(name, Result)` pair or a
thread panic; the loop is embedded as structural recursion carrying the
two accumulator vectors.  `none` marks a panic inside
`clean_error_message` (which would propagate out of `fetch_all_providers`). -/

/-- One joined outcome of a provider fetch task. -/
inductive JoinOutcome where
  | ok (provider : String) (res : Except String (List ProviderPayload))
  | panicked

/-- The in-band error message chosen for an error payload (lib.rs lines
631-635): the descriptor's message, or `"Unknown error"` when absent. -/
def payloadErrMsg (p : ProviderPayload) : String :=
  ((p.error.bind ProviderError.message).getD "Unknown error")

/-- Embeds the inner loop over one provider's payload list (lib.rs lines
629-640): error payloads become `ProviderFetchError`s, the others are
appended to the successful payloads. -/
def mergePayloads (name : String) (payloads : List ProviderPayload)
    (errs : List ProviderFetchError) :
    List ProviderPayload → Option (List ProviderPayload × List ProviderFetchError)
  | [] => some (payloads, errs)
  | p :: rest =>
    if p.has_error then
      match ProviderFetchError.new name (payloadErrMsg p) with
      | some e => mergePayloads name payloads (errs ++ [e]) rest
      | none => none
    else mergePayloads name (payloads ++ [p]) errs rest

/-- Embeds the outer loop over the joined outcomes (lib.rs lines 625-654). -/
def mergeOutcomes (payloads : List ProviderPayload) (errs : List ProviderFetchError) :
    List JoinOutcome → Option FetchResult
  | [] => some ⟨payloads, errs⟩
  | .ok name (.ok pls) :: rest =>
    match mergePayloads name payloads errs pls with
    | some (ps, es) => mergeOutcomes ps es rest
    | none => none
  | .ok name (.error e) :: rest =>
    match ProviderFetchError.new name e with
    | some fe => mergeOutcomes payloads (errs ++ [fe]) rest
    | none => none
  | .panicked :: rest =>
    mergeOutcomes payloads (errs ++ [⟨"unknown", "thread panicked", "thread panicked"⟩]) rest

/-- Embeds the join phase of `fetch_all_providers`: the `FetchResult`
built from the joined outcomes, starting from empty accumulators. -/
def fetch_all_join (outcomes : List JoinOutcome) : Option FetchResult :=
  mergeOutcomes [] [] outcomes

/-! ## Row Projector (lib.rs lines 679-768) -/

/-- Embeds `format_window` (lib.rs lines 687-696). -/
def format_window : Option UsageWindow → Option (Fin 256) × Option (Fin 4294967296) × String
  | some window =>
    (window.used_percent.map (fun used => min used 100),
     window.window_minutes,
     window.reset_description.getD "—")
  | none => (none, none, "—")

/-- Rust `time_part.trim_end_matches('Z')`: remove every trailing `Z`. -/
def trimTrailZ (s : List Char) : List Char :=
  (s.reverse.dropWhile (· == 'Z')).reverse

/-- Embeds `format_updated` (lib.rs lines 698-712).  `rfc` abstracts
`chrono`: it returns the local-time `"HH:MM"` rendering when the string
parses as RFC-3339, and `none` when parsing fails. -/
def format_updated (rfc : String → Option String) : Option String → String
  | none => "—"
  | some v =>
    match rfc v with
    | some s => s
    | none =>
      match splitFirstAt ['T'] v.data with
      | some (_, timePart) =>
        let t := trimTrailZ timePart
        String.mk ((byteTake 5 t).getD t)
      | none => v

/-- Embeds `provider_to_row` (lib.rs lines 714-768).  `rfc` abstracts
`chrono` (see `format_updated`); `fmtF64` abstracts the
`format!("{remaining:.2}")` rendering of the credits balance. -/
structure ProviderRow where
  provider : String
  session_used : Option (Fin 256)
  session_window_minutes : Option (Fin 4294967296)
  session_reset : String
  weekly_used : Option (Fin 256)
  weekly_window_minutes : Option (Fin 4294967296)
  weekly_reset : String
  credits : String
  source : String
  updated : String
  deriving DecidableEq

/-- Embeds `provider_to_row` (lib.rs lines 714-768). -/
def provider_to_row (rfc : String → Option String) (fmtF64 : ℚ → String)
    (payload : ProviderPayload) : ProviderRow :=
  let parts :=
    match payload.usage with
    | some usage =>
      let updated := format_updated rfc usage.updated_at
      let s := format_window usage.primary
      let w := format_window usage.secondary
      (s.1, s.2.1, s.2.2, w.1, w.2.1, w.2.2, updated)
    | none => (none, none, "—", none, none, "—", "—")
  let credits := (((payload.credits.bind Credits.remaining).map fmtF64).getD "—")
  let source :=
    match payload.version, payload.source with
    | some version, some src => version ++ " (" ++ src ++ ")"
    | some version, none => version
    | none, some src => src
    | none, none => "—"
  ⟨provider_label payload.provider,
   parts.1, parts.2.1, parts.2.2.1, parts.2.2.2.1, parts.2.2.2.2.1,
   parts.2.2.2.2.2.1, credits, source, parts.2.2.2.2.2.2⟩

/-- Embeds `payload_to_rows` (lib.rs lines 679-685). -/
def payload_to_rows (rfc : String → Option String) (fmtF64 : ℚ → String)
    (payloads : List ProviderPayload) : List ProviderRow :=
  (payloads.filter (fun p => !p.has_error)).map (provider_to_row rfc fmtF64)

/-! ## Weighted-average helper (spec §4.6)

The Row Projector's weighted-average helper is not part of the sources
under `src/` (`src/` holds only the core library, the display binaries
and tests, none of which define it), so it is modelled from the spec. -/

/-- Modelled from the spec: the pairs the weighted average keeps — the
helper skips "any pair missing a percent or with a non-positive/missing
window length".  The function itself is absent from `src/`. -/
def validPairs (pairs : List (Option ℚ × Option ℚ)) : List (ℚ × ℚ) :=
  pairs.filterMap (fun pm =>
    match pm.1, pm.2 with
    | some p, some m => if 0 < m then some (p, m) else none
    | _, _ => none)

/-- Modelled from the spec: `Σ(minutes)` over the kept pairs. -/
def sumMinutes (pairs : List (Option ℚ × Option ℚ)) : ℚ :=
  ((validPairs pairs).map (fun pm => pm.2)).sum

/-- Modelled from the spec: the Row Projector's weighted-average helper,
absent from `src/`.  It accumulates `Σ(percent·minutes)` and `Σ(minutes)`
over the kept pairs and returns `round(Σ(percent·minutes) / Σ(minutes))`
clamped to 100, or no value when the accumulated minutes is zero. -/
def weighted_average (pairs : List (Option ℚ × Option ℚ)) : Option ℤ :=
  let num := ((validPairs pairs).map (fun pm => pm.1 * pm.2)).sum
  let den := sumMinutes pairs
  if den = 0 then none else some (min 100 (round (num / den)))

/-! ## Cache Store at the JSON-value level (lib.rs lines 434-467, 775-810)

`serde_json`'s text layer and the file system are external; the cache
claims are settled at the JSON-value level.  `Json` models a parsed
`serde_json` document: an object is the ordered field list of the text
(duplicates possible), a number is `serde_json`'s positive-integer /
negative-integer / double triple (doubles as rationals, like `f64`
above).  The encoders below model the derived `Serialize` impls
(`camelCase` field names, `None` as `null`), the decoders the derived
`Deserialize` impls (unknown fields ignored, duplicate known fields
rejected, missing `Option` fields `None`), and `CachedData`'s decoder
the `#[serde(untagged)]` variant order: `Full` first, then `Legacy`. -/

/-- A `serde_json` number: positive integer, negative integer, or double. -/
inductive JNum where
  | pos (n : Nat)
  | neg (i : Int)
  | flt (q : ℚ)

/-- A parsed JSON document (object fields in textual order). -/
inductive Json where
  | null
  | bool (b : Bool)
  | num (n : JNum)
  | str (s : String)
  | arr (elements : List Json)
  | obj (fields : List (String × Json))

/-- Models the derived struct deserializer's field pass: keep the first
occurrence of each known field in order, reject a duplicate known field
(`serde` errors with "duplicate field"), ignore unknown fields. -/
def dedupKnown (known : List String) : List (String × Json) → List String →
    Option (List (String × Json))
  | [], _ => some []
  | (k, v) :: rest, seen =>
    if known.contains k then
      if seen.contains k then none
      else (dedupKnown known rest (k :: seen)).map ((k, v) :: ·)
    else dedupKnown known rest seen

/-- Is this JSON value `null`? -/
def Json.isNull : Json → Bool
  | .null => true
  | _ => false

/-- An optional field (`Option<T>`): missing or `null` is `None`, anything
else must decode. -/
def optField (fs : List (String × Json)) (name : String)
    (dec : Json → Option α) : Option (Option α) :=
  match fs.lookup name with
  | none => some none
  | some j => if j.isNull then some none else (dec j).map some

/-- Decode a `Vec<T>` from a JSON array element list. -/
def decodeList (dec : Json → Option α) : List Json → Option (List α)
  | [] => some []
  | j :: js =>
    match dec j, decodeList dec js with
    | some a, some rest => some (a :: rest)
    | _, _ => none

/-- Decode a `Vec<T>`: only an array is accepted. -/
def jArr (dec : Json → Option α) : Json → Option (List α)
  | .arr xs => decodeList dec xs
  | _ => none

/-- Decode a `String`. -/
def jStr : Json → Option String
  | .str s => some s
  | _ => none

/-- Decode a `u8`. -/
def jU8 : Json → Option (Fin 256)
  | .num (.pos n) => if h : n < 256 then some ⟨n, h⟩ else none
  | _ => none

/-- Decode a `u32`. -/
def jU32 : Json → Option (Fin 4294967296)
  | .num (.pos n) => if h : n < 4294967296 then some ⟨n, h⟩ else none
  | _ => none

/-- Decode an `i32`. -/
def jI32 : Json → Option Int32
  | .num (.pos n) =>
    if h : (n : Int) < 2147483648 then some ⟨(n : Int), ⟨by omega, h⟩⟩ else none
  | .num (.neg i) =>
    if h : -2147483648 ≤ i ∧ i < 2147483648 then some ⟨i, h⟩ else none
  | _ => none

/-- Decode an `f64` (any JSON number, as `serde`'s `as_f64`). -/
def jRat : Json → Option ℚ
  | .num (.pos n) => some n
  | .num (.neg i) => some i
  | .num (.flt q) => some q
  | _ => none

/-- Encode a `u8`. -/
def u8J (v : Fin 256) : Json := .num (.pos v.val)

/-- Encode a `u32`. -/
def u32J (v : Fin 4294967296) : Json := .num (.pos v.val)

/-- Encode an `i32`. -/
def i32J (v : Int32) : Json :=
  if v.val < 0 then .num (.neg v.val) else .num (.pos v.val.toNat)

/-- Encode an `f64`. -/
def ratJ (q : ℚ) : Json := .num (.flt q)

/-- Encode an `Option<T>` field value (`None` is `null`). -/
def optJ (enc : α → Json) : Option α → Json
  | none => .null
  | some a => enc a

/-- Serialize a `UsageWindow` (field order and `camelCase` names as in
the derive). -/
def UsageWindow.toJson (w : UsageWindow) : Json :=
  .obj [("usedPercent", optJ u8J w.used_percent),
        ("resetDescription", optJ Json.str w.reset_description),
        ("windowMinutes", optJ u32J w.window_minutes)]

/-- Deserialize a `UsageWindow`. -/
def UsageWindow.fromJson : Json → Option UsageWindow
  | .obj fs =>
    match dedupKnown ["usedPercent", "resetDescription", "windowMinutes"] fs [] with
    | none => none
    | some fs2 =>
      match optField fs2 "usedPercent" jU8, optField fs2 "resetDescription" jStr,
          optField fs2 "windowMinutes" jU32 with
      | some up, some rd, some wm => some ⟨up, rd, wm⟩
      | _, _, _ => none
  | _ => none

/-- Serialize a `UsageSnapshot`. -/
def UsageSnapshot.toJson (s : UsageSnapshot) : Json :=
  .obj [("primary", optJ UsageWindow.toJson s.primary),
        ("secondary", optJ UsageWindow.toJson s.secondary),
        ("updatedAt", optJ Json.str s.updated_at)]

/-- Deserialize a `UsageSnapshot`. -/
def UsageSnapshot.fromJson : Json → Option UsageSnapshot
  | .obj fs =>
    match dedupKnown ["primary", "secondary", "updatedAt"] fs [] with
    | none => none
    | some fs2 =>
      match optField fs2 "primary" UsageWindow.fromJson,
          optField fs2 "secondary" UsageWindow.fromJson,
          optField fs2 "updatedAt" jStr with
      | some p, some s, some u => some ⟨p, s, u⟩
      | _, _, _ => none
  | _ => none

/-- Serialize a `Credits`. -/
def Credits.toJson (c : Credits) : Json :=
  .obj [("remaining", optJ ratJ c.remaining)]

/-- Deserialize a `Credits`. -/
def Credits.fromJson : Json → Option Credits
  | .obj fs =>
    match dedupKnown ["remaining"] fs [] with
    | none => none
    | some fs2 =>
      match optField fs2 "remaining" jRat with
      | some r => some ⟨r⟩
      | none => none
  | _ => none

/-- Serialize a `ProviderError`. -/
def ProviderError.toJson (e : ProviderError) : Json :=
  .obj [("message", optJ Json.str e.message),
        ("code", optJ i32J e.code),
        ("kind", optJ Json.str e.kind)]

/-- Deserialize a `ProviderError`. -/
def ProviderError.fromJson : Json → Option ProviderError
  | .obj fs =>
    match dedupKnown ["message", "code", "kind"] fs [] with
    | none => none
    | some fs2 =>
      match optField fs2 "message" jStr, optField fs2 "code" jI32,
          optField fs2 "kind" jStr with
      | some m, some c, some k => some ⟨m, c, k⟩
      | _, _, _ => none
  | _ => none

/-- Serialize a `ProviderPayload`. -/
def ProviderPayload.toJson (p : ProviderPayload) : Json :=
  .obj [("provider", .str p.provider),
        ("version", optJ Json.str p.version),
        ("source", optJ Json.str p.source),
        ("usage", optJ UsageSnapshot.toJson p.usage),
        ("credits", optJ Credits.toJson p.credits),
        ("error", optJ ProviderError.toJson p.error)]

/-- Deserialize a `ProviderPayload` (`provider` is a required field). -/
def ProviderPayload.fromJson : Json → Option ProviderPayload
  | .obj fs =>
    match dedupKnown ["provider", "version", "source", "usage", "credits", "error"] fs [] with
    | none => none
    | some fs2 =>
      match fs2.lookup "provider" with
      | none => none
      | some pj =>
        match jStr pj with
        | none => none
        | some provider =>
          match optField fs2 "version" jStr, optField fs2 "source" jStr,
              optField fs2 "usage" UsageSnapshot.fromJson,
              optField fs2 "credits" Credits.fromJson,
              optField fs2 "error" ProviderError.fromJson with
          | some v, some s, some u, some c, some e =>
            some ⟨provider, v, s, u, c, e⟩
          | _, _, _, _, _ => none
  | _ => none

/-- Serialize a `ProviderFetchError` (no `rename_all`; field names as-is). -/
def ProviderFetchError.toJson (e : ProviderFetchError) : Json :=
  .obj [("provider", .str e.provider),
        ("message", .str e.message),
        ("raw", .str e.raw)]

/-- Deserialize a `ProviderFetchError` (all three fields required). -/
def ProviderFetchError.fromJson : Json → Option ProviderFetchError
  | .obj fs =>
    match dedupKnown ["provider", "message", "raw"] fs [] with
    | none => none
    | some fs2 =>
      match fs2.lookup "provider", fs2.lookup "message", fs2.lookup "raw" with
      | some pj, some mj, some rj =>
        match jStr pj, jStr mj, jStr rj with
        | some p, some m, some r => some ⟨p, m, r⟩
        | _, _, _ => none
      | _, _, _ => none
  | _ => none

/-- Serialize a `CachedData` (`untagged`: the variant's own shape). -/
def CachedData.toJson : CachedData → Json
  | .Full payloads errors =>
    .obj [("payloads", .arr (payloads.map ProviderPayload.toJson)),
          ("errors", .arr (errors.map ProviderFetchError.toJson))]
  | .Legacy payloads => .arr (payloads.map ProviderPayload.toJson)

/-- Deserialize the `Full` variant (both fields required). -/
def fullFromJson : Json → Option CachedData
  | .obj fs =>
    match dedupKnown ["payloads", "errors"] fs [] with
    | none => none
    | some fs2 =>
      match fs2.lookup "payloads", fs2.lookup "errors" with
      | some pj, some ej =>
        match jArr ProviderPayload.fromJson pj, jArr ProviderFetchError.fromJson ej with
        | some ps, some es => some (.Full ps es)
        | _, _ => none
      | _, _ => none
  | _ => none

/-- Deserialize a `CachedData`: `untagged` tries `Full` first, then
`Legacy` (a bare payload array). -/
def CachedData.fromJson (j : Json) : Option CachedData :=
  match fullFromJson j with
  | some c => some c
  | none =>
    match j with
    | .arr els => (decodeList ProviderPayload.fromJson els).map CachedData.Legacy
    | _ => none

/-- Embeds the serialization performed by `write_cache_full` (lib.rs lines
789-805): the JSON value written to the cache file (directory creation
and the file write itself are I/O). -/
def write_cache_full (payloads : List ProviderPayload)
    (errors : List ProviderFetchError) : Json :=
  CachedData.toJson (.Full payloads errors)

/-- Embeds the parse performed by `read_cache_full` (lib.rs lines 775-780)
on an already-read JSON document. -/
def read_cache_full (j : Json) : Option CachedData :=
  CachedData.fromJson j

/-! ## Theorems -/

/-- C2: the claim says `clean_error_message` never fails and that every
raw string of 100 identical characters cleans to an at-most-60-character
message ending in an ellipsis.  The code truncates long messages with the
byte slice `&raw[..57]`, which panics when byte 57 is not a character
boundary: for 100 repetitions of the two-byte character `é` every branch
before the truncation misses and the slice panics (`none`), while for 100
repetitions of the one-byte `a` the claimed 57-characters-plus-ellipsis
result does come out.  The claim is right about the intent (the spec
demands graceful degradation on arbitrary input) and the code is wrong. -/
theorem c2_clean_error_message_panics :
    clean_error_message (String.mk (List.replicate 100 'é')) = none ∧
    clean_error_message (String.mk (List.replicate 100 'a')) =
      some (String.mk (List.replicate 57 'a' ++ "...".data)) := by
  constructor <;> decide

/-- C4: the weighted-average helper (modelled from the spec, absent from
`src/`) returns no value exactly when the accumulated minutes over the
kept pairs is zero, never returns a value above 100, and satisfies the
spec's three examples: `[(80, 0 minutes)]` and `[]` give no value, and
`[(50, 100 minutes), (100, 100 minutes)]` gives 75. -/
theorem c4_weighted_average :
    (∀ pairs, weighted_average pairs = none ↔ sumMinutes pairs = 0) ∧
    (∀ pairs z, weighted_average pairs = some z → z ≤ 100) ∧
    weighted_average [(some 80, some 0)] = none ∧
    weighted_average [] = none ∧
    weighted_average [(some 50, some 100), (some 100, some 100)] = some 75 := by
  refine ⟨fun pairs => ?_, fun pairs z h => ?_, ?_, ?_, ?_⟩
  · by_cases h : sumMinutes pairs = 0 <;> simp [weighted_average, h]
  · by_cases hden : sumMinutes pairs = 0
    · simp [weighted_average, hden] at h
    · simp [weighted_average, hden] at h
      omega
  · simp [weighted_average, validPairs, sumMinutes]
  · simp [weighted_average, validPairs, sumMinutes]
  · have h : ((50 : ℚ) * 100 + 100 * 100) / (100 + 100) = (75 : ℚ) := by norm_num
    simp [weighted_average, validPairs, sumMinutes]
    norm_num [h]

/-- Witness for C4: the bound applies at the spec's third example. -/
theorem c4_witness : (75 : ℤ) ≤ 100 ∧ weighted_average [] = none := by
  have h := c4_weighted_average
  exact ⟨h.2.1 [(some 50, some 100), (some 100, some 100)] 75 h.2.2.2.2, h.2.2.2.1⟩

/-- C6 counterexample: the claim says the fetch-failure detail carries
stderr whenever stderr is non-empty, but the code tests and carries the
whitespace-*trimmed* stderr.  With non-zero exit, unparseable stdout
`"x"` and the non-empty, whitespace-only stderr `" "`, the code's detail
is the trimmed stdout `"x"`, not the claimed stderr. -/
theorem c6_counterexample :
    fetch_output_result (fun _ => .error "codexbar output was not JSON") false
        "exit status: 1" "x" " " =
      .error "codexbar failed (exit status: 1) - x" ∧
    (" " : String) ≠ "" ∧
    ("codexbar failed (exit status: 1) - x" : String) ≠
      "codexbar failed (exit status: 1) -  " := by
  refine ⟨rfl, by decide, by decide⟩

/-- C6 (amended): on non-zero exit `fetch_single_provider` first attempts
to parse standard-output as a payload list and returns that list as
success when parsing succeeds; only when standard-output is not
parseable does it return a fetch failure whose raw detail carries the
exit status plus the whitespace-trimmed stderr when that is non-empty,
otherwise the whitespace-trimmed stdout when that is non-empty,
otherwise the text `"no error output"`.  `parse` abstracts
`parse_payload_bytes` (`serde_json`). -/
theorem c6_fetch_output_result (parse : String → Except String (List ProviderPayload))
    (status out err : String) :
    (∀ ps, parse out = .ok ps →
      fetch_output_result parse false status out err = .ok ps) ∧
    (∀ m, parse out = .error m →
      fetch_output_result parse false status out err =
        .error ("codexbar failed (" ++ status ++ ") - " ++
          (if rustTrimS err = "" then
            (if rustTrimS out = "" then "no error output" else rustTrimS out)
          else rustTrimS err))) := by
  constructor
  · intro ps h
    simp [fetch_output_result, h]
  · intro m h
    simp [fetch_output_result, h]

/-- Witness for C6: a parse success is passed through on non-zero exit,
and a parse failure produces the status-plus-detail error. -/
theorem c6_witness :
    fetch_output_result (fun _ => .ok []) false "exit status: 1" "[]" "oops" = .ok [] ∧
    fetch_output_result (fun _ => .error "nope") false "exit status: 101" "" "boom" =
      .error "codexbar failed (exit status: 101) - boom" := by
  constructor
  · exact (c6_fetch_output_result (fun _ => .ok []) "exit status: 1" "[]" "oops").1 [] rfl
  · have h := (c6_fetch_output_result (fun _ => .error "nope") "exit status: 101" "" "boom").2
      "nope" rfl
    simpa using h

/-- C7: `format_window` clamps a used-percent above 100 to exactly 100
and passes one at most 100 through unchanged, passes window minutes
through unchanged, renders a missing reset description as `"—"`, and
renders an absent window as `(none, none, "—")`. -/
theorem c7_format_window (w : UsageWindow) (u : Fin 256) :
    (w.used_percent = some u → 100 < u → (format_window (some w)).1 = some 100) ∧
    (w.used_percent = some u → u ≤ 100 → (format_window (some w)).1 = some u) ∧
    (format_window (some w)).2.1 = w.window_minutes ∧
    (w.reset_description = none → (format_window (some w)).2.2 = "—") ∧
    format_window none = (none, none, "—") := by
  refine ⟨fun h hlt => ?_, fun h hle => ?_, rfl, fun h => ?_, rfl⟩
  · simp [format_window, h, min_eq_right hlt.le]
  · simp [format_window, h, min_eq_left hle]
  · simp [format_window, h]

/-- Witness for C7: a window at 150 clamps to 100, one at 42 passes
through, minutes pass through, and the missing reset renders `"—"`. -/
theorem c7_witness :
    (format_window (some ⟨some 150, none, some 60⟩)).1 = some 100 ∧
    (format_window (some ⟨some 42, none, none⟩)).1 = some 42 ∧
    (format_window (some ⟨some 150, none, some 60⟩)).2.1 = some 60 ∧
    (format_window (some ⟨some 150, none, some 60⟩)).2.2 = "—" := by
  refine ⟨(c7_format_window ⟨some 150, none, some 60⟩ 150).1 rfl (by decide),
    (c7_format_window ⟨some 42, none, none⟩ 42).2.1 rfl (by decide),
    (c7_format_window ⟨some 150, none, some 60⟩ 150).2.2.1, ?_⟩
  exact (c7_format_window ⟨some 150, none, some 60⟩ 150).2.2.2.1 rfl

/-- C8 counterexample: the claim says that when RFC-3339 parsing fails
and the string contains `'T'`, the result is the first 5 characters of
the part after `'T'` with *a* trailing `'Z'` stripped.  The code instead
strips *all* trailing `'Z'`s and then takes the first 5 *bytes* (falling
back to the whole remainder off a character boundary): `"aT123ZZ"` gives
`"123"` (the claim predicts `"123Z"`), and `"aTàbcde"` gives the 4
characters `"àbcd"` (the claim predicts the 5 characters `"àbcde"`).
Neither input parses as RFC-3339, so `chrono` is instantiated with the
always-failing parser. -/
theorem c8_counterexample :
    format_updated (fun _ => none) (some "aT123ZZ") = "123" ∧
    format_updated (fun _ => none) (some "aT123ZZ") ≠ "123Z" ∧
    format_updated (fun _ => none) (some "aTàbcde") = "àbcd" ∧
    format_updated (fun _ => none) (some "aTàbcde") ≠ "àbcde" := by
  refine ⟨by decide, by decide, by decide, by decide⟩

/-- C8 (amended): an absent timestamp renders as `"—"`; a string the
RFC-3339 parse (abstracted as `rfc`, `chrono`'s local `"HH:MM"`
rendering) accepts renders as that local time; otherwise a string
containing `'T'` renders as the part after the first `'T'` with all
trailing `'Z'`s stripped, truncated to its first 5 bytes when byte 5 is
a character boundary of it and returned whole otherwise; otherwise the
raw string is returned unchanged. -/
theorem c8_format_updated (rfc : String → Option String) (v s : String) :
    format_updated rfc none = "—" ∧
    (rfc v = some s → format_updated rfc (some v) = s) ∧
    (rfc v = none → ∀ before timePart, splitFirstAt ['T'] v.data = some (before, timePart) →
      format_updated rfc (some v) =
        String.mk ((byteTake 5 (trimTrailZ timePart)).getD (trimTrailZ timePart))) ∧
    (rfc v = none → splitFirstAt ['T'] v.data = none → format_updated rfc (some v) = v) := by
  refine ⟨rfl, fun h => ?_, fun h before timePart hsplit => ?_, fun h hsplit => ?_⟩
  · simp [format_updated, h]
  · simp [format_updated, h, hsplit]
  · simp [format_updated, h, hsplit]

/-- Witness for C8: a successful parse wins; `"2026-01-20T14:30:00Z"`
falls back to `"14:30"`; a string without `'T'` is returned unchanged. -/
theorem c8_witness :
    format_updated (fun _ => some "07:37") (some "2026-01-20T07:37:16Z") = "07:37" ∧
    format_updated (fun _ => none) (some "2026-01-20T14:30:00Z") = "14:30" ∧
    format_updated (fun _ => none) (some "unknown format") = "unknown format" := by
  refine ⟨(c8_format_updated (fun _ => some "07:37") "2026-01-20T07:37:16Z" "07:37").2.1 rfl,
    ?_, ?_⟩
  · have h := (c8_format_updated (fun _ => none) "2026-01-20T14:30:00Z" "").2.2.1 rfl
      "2026-01-20".data "14:30:00Z".data (by decide)
    simpa using h
  · exact (c8_format_updated (fun _ => none) "unknown format" "").2.2.2 rfl (by decide)

/-- C9: the row's source field combines version and source as
`"<version> (<source>)"` when both are present, is whichever one is
present when only one is, and is `"—"` when neither is.  `rfc` and `fmt`
abstract `chrono` and float formatting, which the source field never
touches. -/
theorem c9_provider_to_row_source (rfc : String → Option String) (fmt : ℚ → String)
    (p : ProviderPayload) (v s : String) :
    (p.version = some v → p.source = some s →
      (provider_to_row rfc fmt p).source = v ++ " (" ++ s ++ ")") ∧
    (p.version = some v → p.source = none → (provider_to_row rfc fmt p).source = v) ∧
    (p.version = none → p.source = some s → (provider_to_row rfc fmt p).source = s) ∧
    (p.version = none → p.source = none → (provider_to_row rfc fmt p).source = "—") := by
  refine ⟨fun h1 h2 => ?_, fun h1 h2 => ?_, fun h1 h2 => ?_, fun h1 h2 => ?_⟩ <;>
    simp [provider_to_row, h1, h2]

/-- Witness for C9: the spec's three examples, with `(None, Some)` too. -/
theorem c9_witness :
    (provider_to_row (fun _ => none) (fun _ => "")
      ⟨"claude", some "2.1.12", some "oauth", none, none, none⟩).source = "2.1.12 (oauth)" ∧
    (provider_to_row (fun _ => none) (fun _ => "")
      ⟨"claude", some "2.1.12", none, none, none, none⟩).source = "2.1.12" ∧
    (provider_to_row (fun _ => none) (fun _ => "")
      ⟨"claude", none, some "oauth", none, none, none⟩).source = "oauth" ∧
    (provider_to_row (fun _ => none) (fun _ => "")
      ⟨"claude", none, none, none, none, none⟩).source = "—" := by
  refine ⟨(c9_provider_to_row_source (fun _ => none) (fun _ => "")
      ⟨"claude", some "2.1.12", some "oauth", none, none, none⟩ "2.1.12" "oauth").1 rfl rfl,
    (c9_provider_to_row_source (fun _ => none) (fun _ => "")
      ⟨"claude", some "2.1.12", none, none, none, none⟩ "2.1.12" "oauth").2.1 rfl rfl,
    (c9_provider_to_row_source (fun _ => none) (fun _ => "")
      ⟨"claude", none, some "oauth", none, none, none⟩ "2.1.12" "oauth").2.2.1 rfl rfl,
    (c9_provider_to_row_source (fun _ => none) (fun _ => "")
      ⟨"claude", none, none, none, none, none⟩ "2.1.12" "oauth").2.2.2 rfl rfl⟩

/-! ## Configuration lemmas (for C5 and C10) -/

/-- Membership in a conditional singleton block of `enabled_providers`. -/
lemma mem_ite_nil {α : Type} {p : Prop} [Decidable p] {l : List α} (a : α) :
    a ∈ (if p then l else []) ↔ p ∧ a ∈ l := by
  split_ifs with h <;> simp [h]

/-- The names produced by `enabled_providers`, block by block. -/
lemma enabled_names (c : ProvidersConfig) :
    c.enabled_providers.map EnabledProvider.name =
      (if c.codex.getD false then ["codex"] else []) ++
      (if c.claude.getD false then ["claude"] else []) ++
      (if c.zai.isSome then ["zai"] else []) ++
      (if c.kimik2.isSome then ["kimik2"] else []) ++
      (if c.copilot.isSome then ["copilot"] else []) ++
      (if c.minimax.isSome then ["minimax"] else []) ++
      (if c.kimi.isSome then ["kimi"] else []) := by
  obtain ⟨cx, cl, z, k2, cp, mm, km⟩ := c
  rcases z with _ | z <;> rcases k2 with _ | k2 <;> rcases cp with _ | cp <;>
    rcases mm with _ | mm <;> rcases km with _ | km <;>
    simp [ProvidersConfig.enabled_providers, apply_ite (List.map EnabledProvider.name)]

/-- The names produced by `enabled_providers` are the registry's names, in
registry order, restricted to the enabled ones. -/
lemma enabled_names_filter (c : ProvidersConfig) :
    c.enabled_providers.map EnabledProvider.name =
      (PROVIDERS.map ProviderInfo.name).filter (fun n => c.is_enabled n) := by
  obtain ⟨cx, cl, z, k2, cp, mm, km⟩ := c
  rcases cx with _ | b1 <;> rcases cl with _ | b2 <;>
    rcases z with _ | z <;> rcases k2 with _ | k2 <;> rcases cp with _ | cp <;>
    rcases mm with _ | mm <;> rcases km with _ | km
  all_goals try cases b1
  all_goals try cases b2
  all_goals rfl

/-- The configured credential entry for an API provider name: the
configuration field with that provider's name. -/
def apiConfigOf (c : ProvidersConfig) (name : String) : Option ApiProviderConfig :=
  if name = "zai" then c.zai
  else if name = "kimik2" then c.kimik2
  else if name = "copilot" then c.copilot
  else if name = "minimax" then c.minimax
  else if name = "kimi" then c.kimi
  else none

/-- Every `EnabledProvider` produced by `enabled_providers` has one of the
seven registry shapes, API-type ones carrying exactly the credential
configured for that provider. -/
lemma mem_enabled_shape (c : ProvidersConfig) (ep : EnabledProvider)
    (h : ep ∈ c.enabled_providers) :
    ep = ⟨"codex", .OAuth, none, none⟩ ∨ ep = ⟨"claude", .OAuth, none, none⟩ ∨
    (∃ cfg, c.zai = some cfg ∧ ep = ⟨"zai", .Api, some cfg.api_key, some "ZAI_API_TOKEN"⟩) ∨
    (∃ cfg, c.kimik2 = some cfg ∧
      ep = ⟨"kimik2", .Api, some cfg.api_key, some "KIMI_K2_API_KEY"⟩) ∨
    (∃ cfg, c.copilot = some cfg ∧
      ep = ⟨"copilot", .Api, some cfg.api_key, some "COPILOT_API_TOKEN"⟩) ∨
    (∃ cfg, c.minimax = some cfg ∧
      ep = ⟨"minimax", .Api, some cfg.api_key, some "MINIMAX_API_TOKEN"⟩) ∨
    (∃ cfg, c.kimi = some cfg ∧ ep = ⟨"kimi", .Api, some cfg.api_key, some "KIMI_AUTH_TOKEN"⟩) := by
  obtain ⟨cx, cl, z, k2, cp, mm, km⟩ := c
  rcases z with _ | z <;> rcases k2 with _ | k2 <;> rcases cp with _ | cp <;>
    rcases mm with _ | mm <;> rcases km with _ | km <;>
    simp only [ProvidersConfig.enabled_providers, List.mem_append, mem_ite_nil,
      List.mem_singleton, List.not_mem_nil, or_false, false_or] at h <;>
    aesop

/-- C5: `is_enabled(name)` returns true exactly when `name` occurs among
the names of the `EnabledProvider` entries produced by
`enabled_providers()` on the same configuration (hence false for every
unknown identifier, which never occurs among them). -/
theorem c5_is_enabled_iff_enabled (c : ProvidersConfig) (name : String) :
    c.is_enabled name = true ↔ name ∈ c.enabled_providers.map EnabledProvider.name := by
  rw [enabled_names]
  simp only [List.mem_append, mem_ite_nil, List.mem_singleton, ProvidersConfig.is_enabled]
  split_ifs with h1 h2 h3 h4 h5 h6 h7
  · subst h1; simp
  · subst h2; simp
  · subst h3; simp
  · subst h4; simp
  · subst h5; simp
  · subst h6; simp
  · subst h7; simp
  · simp [h1, h2, h3, h4, h5, h6, h7]

/-- C10: every `EnabledProvider` produced by `enabled_providers()` is
consistent with the static registry — its name occurs in `PROVIDERS`
with the same provider type, API-type entries carry the registry's
env_var together with exactly the credential configured for that
provider, while OAuth-type entries carry neither — and the output names
always follow the fixed registry order codex, claude, zai, kimik2,
copilot, minimax, kimi restricted to the enabled providers. -/
theorem c10_enabled_providers_registry (c : ProvidersConfig) (ep : EnabledProvider)
    (h : ep ∈ c.enabled_providers) :
    (∃ info, info ∈ PROVIDERS ∧ info.name = ep.name ∧
      info.provider_type = ep.provider_type ∧ ep.env_var = info.env_var ∧
      (ep.provider_type = ProviderType.Api →
        ∃ cfg, apiConfigOf c ep.name = some cfg ∧ ep.api_key = some cfg.api_key) ∧
      (ep.provider_type = ProviderType.OAuth → ep.api_key = none)) ∧
    c.enabled_providers.map EnabledProvider.name =
      (PROVIDERS.map ProviderInfo.name).filter (fun n => c.is_enabled n) := by
  refine ⟨?_, enabled_names_filter c⟩
  rcases mem_enabled_shape c ep h with h | h | ⟨cfg, hcfg, h⟩ | ⟨cfg, hcfg, h⟩ |
    ⟨cfg, hcfg, h⟩ | ⟨cfg, hcfg, h⟩ | ⟨cfg, hcfg, h⟩ <;> subst h
  · exact ⟨⟨"codex", .OAuth, none, "Codex"⟩, by decide, rfl, rfl, rfl,
      by simp, by simp⟩
  · exact ⟨⟨"claude", .OAuth, none, "Claude"⟩, by decide, rfl, rfl, rfl,
      by simp, by simp⟩
  · exact ⟨⟨"zai", .Api, some "ZAI_API_TOKEN", "z.ai"⟩, by decide, rfl, rfl, rfl,
      fun _ => ⟨cfg, by simp [apiConfigOf, hcfg], rfl⟩, by simp⟩
  · exact ⟨⟨"kimik2", .Api, some "KIMI_K2_API_KEY", "Kimi K2"⟩, by decide, rfl, rfl, rfl,
      fun _ => ⟨cfg, by simp [apiConfigOf, hcfg], rfl⟩, by simp⟩
  · exact ⟨⟨"copilot", .Api, some "COPILOT_API_TOKEN", "Copilot"⟩, by decide, rfl, rfl, rfl,
      fun _ => ⟨cfg, by simp [apiConfigOf, hcfg], rfl⟩, by simp⟩
  · exact ⟨⟨"minimax", .Api, some "MINIMAX_API_TOKEN", "MiniMax"⟩, by decide, rfl, rfl, rfl,
      fun _ => ⟨cfg, by simp [apiConfigOf, hcfg], rfl⟩, by simp⟩
  · exact ⟨⟨"kimi", .Api, some "KIMI_AUTH_TOKEN", "Kimi"⟩, by decide, rfl, rfl, rfl,
      fun _ => ⟨cfg, by simp [apiConfigOf, hcfg], rfl⟩, by simp⟩

/-- Witness for C10: applied to a configuration enabling codex (flag) and
zai (credential presence), at the zai entry, whose carried key is the
configured `"key"`. -/
theorem c10_witness :
    (∃ info, info ∈ PROVIDERS ∧ info.name = "zai" ∧
      info.provider_type = ProviderType.Api ∧
      (some "ZAI_API_TOKEN" : Option String) = info.env_var ∧
      (ProviderType.Api = ProviderType.Api →
        ∃ cfg, apiConfigOf
            (ProvidersConfig.mk (some true) none (some ⟨"key"⟩) none none none none)
            "zai" = some cfg ∧
          (some "key" : Option String) = some cfg.api_key) ∧
      (ProviderType.Api = ProviderType.OAuth → (some "key" : Option String) = none)) ∧
    (ProvidersConfig.mk (some true) none (some ⟨"key"⟩) none none none
        none).enabled_providers.map EnabledProvider.name =
      (PROVIDERS.map ProviderInfo.name).filter
        (fun n => (ProvidersConfig.mk (some true) none (some ⟨"key"⟩) none none none
          none).is_enabled n) :=
  c10_enabled_providers_registry
    (ProvidersConfig.mk (some true) none (some ⟨"key"⟩) none none none none)
    ⟨"zai", .Api, some "key", some "ZAI_API_TOKEN"⟩ (by decide)

/-! ## Orchestrator merge lemmas (for C1) -/

/-- Specification value: the successful payloads one joined outcome
contributes — a successful fetch's payloads without an error descriptor. -/
def okPayloadsOf : JoinOutcome → List ProviderPayload
  | .ok _ (.ok pls) => pls.filter (fun p => !p.has_error)
  | _ => []

/-- Specification value: the `(provider, raw message)` pairs of the
`ProviderFetchError`s one joined outcome contributes. -/
def expectedErrPairs : JoinOutcome → List (String × String)
  | .ok name (.ok pls) =>
    (pls.filter (fun p => p.has_error)).map (fun p => (name, payloadErrMsg p))
  | .ok name (.error e) => [(name, e)]
  | .panicked => [("unknown", "thread panicked")]

/-- `ProviderFetchError::new` stores the provider and the raw message. -/
lemma new_spec {name raw : String} {e : ProviderFetchError}
    (h : ProviderFetchError.new name raw = some e) : e.provider = name ∧ e.raw = raw := by
  unfold ProviderFetchError.new at h
  cases hc : clean_error_message raw with
  | none => rw [hc] at h; cases h
  | some m => rw [hc] at h; cases h; exact ⟨rfl, rfl⟩

/-- The inner payload loop appends the error-free payloads and one error
per error payload (with the provider and that payload's message). -/
lemma mergePayloads_spec (name : String) (pls : List ProviderPayload)
    (accP : List ProviderPayload) (accE : List ProviderFetchError)
    (out : List ProviderPayload × List ProviderFetchError)
    (h : mergePayloads name accP accE pls = some out) :
    out.1 = accP ++ pls.filter (fun p => !p.has_error) ∧
    out.2.map (fun e => (e.provider, e.raw)) =
      accE.map (fun e => (e.provider, e.raw)) ++
        (pls.filter (fun p => p.has_error)).map (fun p => (name, payloadErrMsg p)) := by
  induction pls generalizing accP accE with
  | nil =>
    simp only [mergePayloads] at h
    cases h
    simp
  | cons p rest ih =>
    by_cases hp : p.has_error
    · simp only [mergePayloads, if_pos hp] at h
      cases hnew : ProviderFetchError.new name (payloadErrMsg p) with
      | none => rw [hnew] at h; cases h
      | some e =>
        rw [hnew] at h
        obtain ⟨he1, he2⟩ := new_spec hnew
        obtain ⟨ih1, ih2⟩ := ih _ _ h
        constructor
        · rw [ih1]
          simp [hp]
        · rw [ih2]
          simp [hp, he1, he2]
    · simp only [mergePayloads, if_neg hp] at h
      obtain ⟨ih1, ih2⟩ := ih _ _ h
      constructor
      · rw [ih1]
        simp [hp]
      · rw [ih2]
        simp [hp]

/-- The outer outcome loop appends each outcome's contributions in order. -/
lemma mergeOutcomes_spec (ocs : List JoinOutcome) (accP : List ProviderPayload)
    (accE : List ProviderFetchError) (res : FetchResult)
    (h : mergeOutcomes accP accE ocs = some res) :
    res.payloads = accP ++ ocs.flatMap okPayloadsOf ∧
    res.errors.map (fun e => (e.provider, e.raw)) =
      accE.map (fun e => (e.provider, e.raw)) ++ ocs.flatMap expectedErrPairs := by
  induction ocs generalizing accP accE with
  | nil =>
    simp only [mergeOutcomes] at h
    cases h
    simp
  | cons oc rest ih =>
    cases oc with
    | ok nm r =>
      cases r with
      | ok pls =>
        simp only [mergeOutcomes] at h
        cases hm : mergePayloads nm accP accE pls with
        | none => rw [hm] at h; cases h
        | some out =>
          rw [hm] at h
          obtain ⟨m1, m2⟩ := mergePayloads_spec nm pls accP accE out hm
          obtain ⟨ih1, ih2⟩ := ih _ _ h
          constructor
          · rw [ih1, m1]
            simp [okPayloadsOf]
          · rw [ih2, m2]
            simp [expectedErrPairs]
      | error e =>
        simp only [mergeOutcomes] at h
        cases hnew : ProviderFetchError.new nm e with
        | none => rw [hnew] at h; cases h
        | some fe =>
          rw [hnew] at h
          obtain ⟨he1, he2⟩ := new_spec hnew
          obtain ⟨ih1, ih2⟩ := ih _ _ h
          constructor
          · rw [ih1]
            simp [okPayloadsOf]
          · rw [ih2]
            simp [expectedErrPairs, he1, he2]
    | panicked =>
      simp only [mergeOutcomes] at h
      obtain ⟨ih1, ih2⟩ := ih _ _ h
      constructor
      · rw [ih1]
        simp [okPayloadsOf]
      · rw [ih2]
        simp [expectedErrPairs]

/-- C1: whenever the join loop of `fetch_all_providers` completes (the
hypothesis excludes only a panic inside `clean_error_message`, see C2),
the returned payloads are exactly the error-descriptor-free payloads of
the successful fetches in order, the returned errors carry — per
successful fetch — one `(provider, raw)` pair per error payload whose
raw message is the descriptor's message or `"Unknown error"` when that
is absent (besides the fetch-failure and panic entries), and
consequently no payload with an error descriptor present appears in the
returned payloads list. -/
theorem c1_fetch_all_join (outcomes : List JoinOutcome) (res : FetchResult)
    (h : fetch_all_join outcomes = some res) :
    res.payloads = outcomes.flatMap okPayloadsOf ∧
    res.errors.map (fun e => (e.provider, e.raw)) = outcomes.flatMap expectedErrPairs ∧
    ∀ p ∈ res.payloads, p.error = none := by
  obtain ⟨h1, h2⟩ := mergeOutcomes_spec outcomes [] [] res h
  refine ⟨by simpa using h1, by simpa using h2, fun p hp => ?_⟩
  rw [h1] at hp
  simp only [List.nil_append, List.mem_flatMap] at hp
  obtain ⟨oc, hoc, hpoc⟩ := hp
  cases oc with
  | ok nm r =>
    cases r with
    | ok pls =>
      rw [okPayloadsOf] at hpoc
      have hne := (List.mem_filter.mp hpoc).2
      cases hperr : p.error with
      | none => rfl
      | some e => simp [ProviderPayload.has_error, hperr] at hne
    | error e => simp [okPayloadsOf] at hpoc
  | panicked => simp [okPayloadsOf] at hpoc

/-- Witness for C1: a successful fetch with one clean and one
error-carrying payload, a failed fetch, and a panicked task; the clean
payload is kept, the error payload becomes a `"claude"` error with raw
message `"Boom"`, and no kept payload carries an error descriptor. -/
theorem c1_witness :
    ([⟨"claude", some "2.1.12", some "oauth", none, none, none⟩] : List ProviderPayload) =
      [JoinOutcome.ok "claude" (.ok
          [⟨"claude", some "2.1.12", some "oauth", none, none, none⟩,
           ⟨"claude", none, none, none, none, some ⟨some "Boom", none, none⟩⟩]),
        JoinOutcome.ok "codex" (.error "timeout after 2s"),
        JoinOutcome.panicked].flatMap okPayloadsOf ∧
    ([⟨"claude", "Boom", "Boom"⟩,
      ⟨"codex", "Request timed out", "timeout after 2s"⟩,
      ⟨"unknown", "thread panicked", "thread panicked"⟩] : List ProviderFetchError).map
        (fun e => (e.provider, e.raw)) =
      [JoinOutcome.ok "claude" (.ok
          [⟨"claude", some "2.1.12", some "oauth", none, none, none⟩,
           ⟨"claude", none, none, none, none, some ⟨some "Boom", none, none⟩⟩]),
        JoinOutcome.ok "codex" (.error "timeout after 2s"),
        JoinOutcome.panicked].flatMap expectedErrPairs ∧
    ∀ p ∈ ([⟨"claude", some "2.1.12", some "oauth", none, none, none⟩] :
        List ProviderPayload), p.error = none :=
  c1_fetch_all_join
    [JoinOutcome.ok "claude" (.ok
        [⟨"claude", some "2.1.12", some "oauth", none, none, none⟩,
         ⟨"claude", none, none, none, none, some ⟨some "Boom", none, none⟩⟩]),
      JoinOutcome.ok "codex" (.error "timeout after 2s"),
      JoinOutcome.panicked]
    ⟨[⟨"claude", some "2.1.12", some "oauth", none, none, none⟩],
     [⟨"claude", "Boom", "Boom"⟩,
      ⟨"codex", "Request timed out", "timeout after 2s"⟩,
      ⟨"unknown", "thread panicked", "thread panicked"⟩]⟩ rfl

/-! ## Serde round-trip lemmas (for C3) -/

/-- `u8` decode after encode. -/
lemma jU8_rt (v : Fin 256) : jU8 (u8J v) = some v := by
  simp only [jU8, u8J]
  rw [dif_pos v.isLt]

/-- `u32` decode after encode. -/
lemma jU32_rt (v : Fin 4294967296) : jU32 (u32J v) = some v := by
  simp only [jU32, u32J]
  rw [dif_pos v.isLt]

/-- `i32` decode after encode. -/
lemma jI32_rt (v : Int32) : jI32 (i32J v) = some v := by
  obtain ⟨i, hlo, hhi⟩ := v
  unfold i32J
  by_cases h : i < 0
  · simp only [if_pos h, jI32]
    rw [dif_pos ⟨hlo, hhi⟩]
  · simp only [if_neg h, jI32]
    have hcast : ((i.toNat : Int)) = i := Int.toNat_of_nonneg (by omega)
    rw [dif_pos (by rw [hcast]; exact hhi)]
    simp [Subtype.ext_iff, hcast]

/-- `f64` decode after encode. -/
lemma jRat_rt (q : ℚ) : jRat (ratJ q) = some q := rfl

lemma isNull_null : (Json.null).isNull = true := rfl
lemma isNull_str (s : String) : (Json.str s).isNull = false := rfl
lemma isNull_u8J (v : Fin 256) : (u8J v).isNull = false := rfl
lemma isNull_u32J (v : Fin 4294967296) : (u32J v).isNull = false := rfl
lemma isNull_i32J (v : Int32) : (i32J v).isNull = false := by
  unfold i32J
  by_cases h : v.val < 0 <;> simp [h, Json.isNull]
lemma isNull_ratJ (q : ℚ) : (ratJ q).isNull = false := rfl
lemma isNull_windowJ (w : UsageWindow) : (UsageWindow.toJson w).isNull = false := rfl
lemma isNull_snapshotJ (s : UsageSnapshot) : (UsageSnapshot.toJson s).isNull = false := rfl
lemma isNull_creditsJ (c : Credits) : (Credits.toJson c).isNull = false := rfl
lemma isNull_perrorJ (e : ProviderError) : (ProviderError.toJson e).isNull = false := rfl

/-- `UsageWindow` deserialization inverts serialization. -/
lemma window_rt (w : UsageWindow) :
    UsageWindow.fromJson (UsageWindow.toJson w) = some w := by
  obtain ⟨up, rd, wm⟩ := w
  cases up <;> cases rd <;> cases wm <;>
    simp [UsageWindow.fromJson, UsageWindow.toJson, dedupKnown, optField, optJ,
      List.lookup, jU8_rt, jU32_rt, jStr, isNull_null, isNull_str, isNull_u8J, isNull_u32J]

/-- `UsageSnapshot` deserialization inverts serialization. -/
lemma snapshot_rt (s : UsageSnapshot) :
    UsageSnapshot.fromJson (UsageSnapshot.toJson s) = some s := by
  obtain ⟨p, sec, u⟩ := s
  cases p <;> cases sec <;> cases u <;>
    simp [UsageSnapshot.fromJson, UsageSnapshot.toJson, dedupKnown, optField, optJ,
      List.lookup, window_rt, jStr, isNull_null, isNull_str, isNull_windowJ]

/-- `Credits` deserialization inverts serialization. -/
lemma credits_rt (c : Credits) : Credits.fromJson (Credits.toJson c) = some c := by
  obtain ⟨r⟩ := c
  cases r <;>
    simp [Credits.fromJson, Credits.toJson, dedupKnown, optField, optJ,
      List.lookup, jRat_rt, isNull_null, isNull_ratJ]

/-- `ProviderError` deserialization inverts serialization. -/
lemma perror_rt (e : ProviderError) :
    ProviderError.fromJson (ProviderError.toJson e) = some e := by
  obtain ⟨m, c, k⟩ := e
  cases m <;> cases c <;> cases k <;>
    simp [ProviderError.fromJson, ProviderError.toJson, dedupKnown, optField, optJ,
      List.lookup, jStr, jI32_rt, isNull_null, isNull_str, isNull_i32J]

/-- `ProviderPayload` deserialization inverts serialization. -/
lemma payload_rt (p : ProviderPayload) :
    ProviderPayload.fromJson (ProviderPayload.toJson p) = some p := by
  obtain ⟨pr, v, s, u, c, e⟩ := p
  cases v <;> cases s <;> cases u <;> cases c <;> cases e <;>
    simp [ProviderPayload.fromJson, ProviderPayload.toJson, dedupKnown, optField, optJ,
      List.lookup, jStr, snapshot_rt, credits_rt, perror_rt,
      isNull_null, isNull_str, isNull_snapshotJ, isNull_creditsJ, isNull_perrorJ]

/-- `ProviderFetchError` deserialization inverts serialization. -/
lemma ferr_rt (e : ProviderFetchError) :
    ProviderFetchError.fromJson (ProviderFetchError.toJson e) = some e := by
  obtain ⟨p, m, r⟩ := e
  simp [ProviderFetchError.fromJson, ProviderFetchError.toJson, dedupKnown,
    List.lookup, jStr]

/-- Element-wise list decode after encode. -/
lemma decodeList_rt {α : Type} (dec : Json → Option α) (enc : α → Json)
    (h : ∀ a, dec (enc a) = some a) (l : List α) :
    decodeList dec (l.map enc) = some l := by
  induction l with
  | nil => rfl
  | cons a rest ih => simp [decodeList, h, ih]

/-- C3: writing any `(payloads, errors)` pair with `write_cache_full` and
reading the result back with `read_cache_full` yields an equal pair; and
reading any legacy cache document that is a bare JSON array of payloads
yields those same payloads together with an empty error list. -/
theorem c3_cache_roundtrip (ps : List ProviderPayload) (es : List ProviderFetchError)
    (els : List Json) (ps2 : List ProviderPayload) :
    (read_cache_full (write_cache_full ps es)).map CachedData.into_parts = some (ps, es) ∧
    (decodeList ProviderPayload.fromJson els = some ps2 →
      (read_cache_full (Json.arr els)).map CachedData.into_parts = some (ps2, [])) := by
  constructor
  · simp [read_cache_full, write_cache_full, CachedData.fromJson, fullFromJson,
      CachedData.toJson, dedupKnown, List.lookup, jArr,
      decodeList_rt ProviderPayload.fromJson ProviderPayload.toJson payload_rt,
      decodeList_rt ProviderFetchError.fromJson ProviderFetchError.toJson ferr_rt,
      CachedData.into_parts]
  · intro h
    simp [read_cache_full, CachedData.fromJson, fullFromJson, h, CachedData.into_parts]

/-- Witness for C3: a concrete snapshot with usage data round-trips, and
a concrete legacy bare-array document reads as its payloads with an
empty error list. -/
theorem c3_witness :
    (read_cache_full (write_cache_full
        [⟨"claude", some "2.1.12", some "oauth",
          some ⟨some ⟨some 19, some "Jan 20 at 12:59PM", some 300⟩, none,
            some "2026-01-20T07:37:16Z"⟩, none, none⟩]
        [⟨"codex", "Request timed out", "timeout after 2s"⟩])).map CachedData.into_parts =
      some ([⟨"claude", some "2.1.12", some "oauth",
          some ⟨some ⟨some 19, some "Jan 20 at 12:59PM", some 300⟩, none,
            some "2026-01-20T07:37:16Z"⟩, none, none⟩],
        [⟨"codex", "Request timed out", "timeout after 2s"⟩]) ∧
    (read_cache_full (Json.arr [Json.obj [("provider", Json.str "claude")]])).map
        CachedData.into_parts =
      some ([⟨"claude", none, none, none, none, none⟩], []) :=
  ⟨(c3_cache_roundtrip
      [⟨"claude", some "2.1.12", some "oauth",
        some ⟨some ⟨some 19, some "Jan 20 at 12:59PM", some 300⟩, none,
          some "2026-01-20T07:37:16Z"⟩, none, none⟩]
      [⟨"codex", "Request timed out", "timeout after 2s"⟩] [] []).1,
   (c3_cache_roundtrip [] [] [Json.obj [("provider", Json.str "claude")]]
      [⟨"claude", none, none, none, none, none⟩]).2 rfl⟩
